import Mathlib

/-!
Verification of the Eolie `WebView` navigation and content decision policy
(`src/view_web.py`) by a shallow embedding: the engine-callback handlers are
modelled as pure state-transition functions over an explicit per-view state,
with outward effects (signal emissions, engine calls) returned as values.
-/

set_option linter.unusedVariables false

/-- Opaque handle for a `Gio.TlsCertificate`; the code never inspects it. -/
abbrev Certificate := Nat

/-- Result of Python `urllib.parse.urlparse`, restricted to the components the
code reads (`scheme`, `netloc`, `path`). -/
structure UrlParts where
  scheme : String
  netloc : String
  path : String
  deriving Repr, DecidableEq

/-- Characters Python allows inside a URL scheme (`scheme_chars`). -/
def isSchemeChar (c : Char) : Bool :=
  c.isAlpha || c.isDigit || c = '+' || c = '-' || c = '.'

/-- Split a character list at the first colon, if any: returns the part
before it and the part after it. -/
def takeScheme : List Char → Option (List Char × List Char)
  | [] => none
  | c :: rest =>
    if c = ':' then some ([], rest)
    else
      match takeScheme rest with
      | some (pre, post) => some (c :: pre, post)
      | none => none

/-- Model of Python 3 `urllib.parse.urlparse` for the components the code
uses.  A scheme is recognised when the text before the first colon is
non-empty, made of scheme characters, and the remainder is not a bare port
number; the netloc follows a leading `//` up to the next `/`, `?` or `#`;
the path is the remainder up to the first `?` or `#`.  The `params`
component (a `;` suffix of the last path segment) is not modelled: no URI
handled by the claims contains `;`. -/
def urlparse (uri : String) : UrlParts :=
  let cs := uri.toList
  let (schemeCs, rest) :=
    match takeScheme cs with
    | some (pre, post) =>
      if pre ≠ [] && pre.all isSchemeChar &&
          (post.isEmpty || post.any (fun c => !c.isDigit)) then
        (pre.map Char.toLower, post)
      else ([], cs)
    | none => ([], cs)
  let (netlocCs, rest2) :=
    match rest with
    | '/' :: '/' :: after =>
      (after.takeWhile (fun c => c ≠ '/' && c ≠ '?' && c ≠ '#'),
       after.dropWhile (fun c => c ≠ '/' && c ≠ '?' && c ≠ '#'))
    | _ => ([], rest)
  let pathCs := rest2.takeWhile (fun c => c ≠ '?' && c ≠ '#')
  { scheme := schemeCs.asString, netloc := netlocCs.asString,
    path := pathCs.asString }

/-- Per-view mutable state of `WebView` (the fields touched by the handlers
under verification). -/
structure ViewState where
  loadedUri : String
  title : String
  badTls : Option Certificate
  insecureContentDetected : Bool
  popupException : Option String
  readableContent : String
  deriving Repr, DecidableEq

/-- `WebKit2.PolicyDecisionType`. -/
inductive PolicyDecisionType
  | response
  | navigationAction
  | newWindowAction
  deriving Repr, DecidableEq

/-- `WebKit2.NavigationType`. -/
inductive NavigationType
  | linkClicked
  | formSubmitted
  | backForward
  | reload
  | other
  | formResubmitted
  deriving Repr, DecidableEq

/-- The effective policy decision communicated back to the engine:
`decision.use()`, `decision.download()` or `decision.ignore()`. -/
inductive Decision
  | use
  | download
  | ignore
  deriving Repr, DecidableEq

/-- External collaborators read by `__on_decide_policy`: the engine's
`can_show_mime_type`, the `popupblock` setting, and the ad-block exception
registry `El().adblock.is_an_exception`. -/
structure PolicyEnv where
  canShowMimeType : String → Bool
  popupblock : Bool
  isException : String → Bool

/-- Outcome of one `__on_decide_policy` callback: the effective decision,
the `new-page (uri, show)` signal emission if any, the view state after the
handler, and the boolean the handler returns to the engine. -/
structure PolicyResult where
  decision : Decision
  newPage : Option (String × Bool)
  state : ViewState
  handled : Bool
  deriving Repr

/-- Shallow embedding of `WebView.__on_decide_policy`.  When the handler
makes no explicit decision and returns `False` (the suppressed-popup
fall-through and the plain `decision.use()` branches), WebKit's default
signal handler applies, which calls `decision.use()`; the embedding records
that effective decision. -/
def onDecidePolicy (env : PolicyEnv) (st : ViewState)
    (decisionType : PolicyDecisionType) (mimeType : String) (uri : String)
    (mouseButton : Nat) (navType : NavigationType) : PolicyResult :=
  if decisionType = PolicyDecisionType.response then
    if env.canShowMimeType mimeType then
      { decision := Decision.use, newPage := none, state := st,
        handled := false }
    else
      { decision := Decision.download, newPage := none, state := st,
        handled := false }
  else if mouseButton = 0 then
    if decisionType = PolicyDecisionType.newWindowAction then
      let popup_block := env.popupblock
      let parsed := urlparse uri
      let exception := env.isException parsed.netloc ||
        env.isException (parsed.netloc ++ parsed.path)
      if exception || !popup_block ||
          !(navType ∈ [NavigationType.other, NavigationType.reload,
                       NavigationType.backForward]) then
        { decision := Decision.ignore, newPage := some (uri, true),
          state := st, handled := true }
      else
        { decision := Decision.use, newPage := none, state := st,
          handled := false }
    else
      { decision := Decision.use, newPage := none, state := st,
        handled := false }
  else if mouseButton = 1 then
    let st := { st with loadedUri := uri }
    if decisionType = PolicyDecisionType.newWindowAction then
      { decision := Decision.ignore, newPage := some (uri, true),
        state := st, handled := true }
    else
      { decision := Decision.use, newPage := none, state := st,
        handled := false }
  else
    { decision := Decision.ignore, newPage := some (uri, false),
      state := st, handled := true }

/-- Value of a hexadecimal digit character, if it is one (code points
48-57 are the digits, 97-102 and 65-70 the lower and upper letters). -/
def hexVal (c : Char) : Option Nat :=
  let n := c.toNat
  if 48 ≤ n && n ≤ 57 then some (n - 48)
  else if 97 ≤ n && n ≤ 102 then some (n - 87)
  else if 65 ≤ n && n ≤ 70 then some (n - 55)
  else none

/-- Percent-decoding of a character list; invalid escapes are left as-is. -/
def percentDecode : List Char → List Char
  | '%' :: a :: b :: rest =>
    match hexVal a, hexVal b with
    | some x, some y => Char.ofNat (16 * x + y) :: percentDecode rest
    | _, _ => '%' :: percentDecode (a :: b :: rest)
  | c :: rest => c :: percentDecode rest
  | [] => []

/-- Model of `GLib.uri_unescape_string` (percent-decoding). -/
def uriUnescapeString (s : String) : String :=
  (percentDecode s.toList).asString

/-- Replace the leftmost non-overlapping occurrences of `pattern` in a
character list, fuel-bounded so the recursion is structural; one unit of
fuel is spent per consumed character, so fuel equal to the input length is
enough whenever the pattern is non-empty. -/
def replaceFuel (fuel : Nat) (pattern replacement : List Char) :
    List Char → List Char
  | [] => []
  | c :: rest =>
    match fuel with
    | 0 => c :: rest
    | fuel + 1 =>
      if pattern.isPrefixOf (c :: rest) then
        replacement ++
          replaceFuel fuel pattern replacement ((c :: rest).drop
            pattern.length)
      else c :: replaceFuel fuel pattern replacement rest

/-- Model of Python `str.replace` (used by the source as `uri.replace`):
replace every leftmost non-overlapping occurrence of `pattern` by
`replacement`.  The source only calls it with non-empty patterns, for which
the fuel bound is exact. -/
def pyReplace (s pattern replacement : String) : String :=
  (replaceFuel s.toList.length pattern.toList replacement.toList
    s.toList).asString

/-- Outward effect of `WebView.load_uri`: render blank text, hand the URI to
an external ftp client, execute a javascript URI's payload, or ask the
engine to load the URI. -/
inductive LoadAction
  | loadPlainText (text : String)
  | spawnFtp (uri : String)
  | runJavascript (script : String)
  | engineLoadUri (uri : String)
  deriving Repr, DecidableEq

/-- Shallow embedding of `WebView.load_uri`: returns the view state after
the call and the outward effects issued, mirroring the `if`/`elif` chain of
the source.  Note the chain: when the scheme is outside the known list the
URI is prefixed with `http://` and the bad-TLS reset branch is NOT reached;
the reset happens only for schemes in the known list other than
`accept`. -/
def load_uri (st : ViewState) (uri : String) : ViewState × List LoadAction :=
  if uri = "about:blank" then
    ({ st with loadedUri := uri }, [LoadAction.loadPlainText ""])
  else
    let parsed := urlparse uri
    if parsed.scheme = "ftp" then
      (st, [LoadAction.spawnFtp uri])
    else if parsed.scheme = "javascript" then
      (st, [LoadAction.runJavascript
        (pyReplace (uriUnescapeString uri) "javascript:" "")])
    else if !(parsed.scheme ∈ ["http", "https", "file", "populars",
                               "accept"]) then
      let uri2 := "http://" ++ uri
      ({ st with loadedUri := uri2 }, [LoadAction.engineLoadUri uri2])
    else if parsed.scheme ≠ "accept" then
      -- Reset bad tls certificate
      ({ st with badTls := none, insecureContentDetected := false,
                 loadedUri := uri },
       [LoadAction.engineLoadUri uri])
    else
      ({ st with loadedUri := uri }, [LoadAction.engineLoadUri uri])

/-- The interstitial rendered by `__on_load_failed_tls`: title, the
human-readable failure reason, the URI the bypass button loads (the failing
URI with `https://` replaced by `accept://`), and the button label. -/
structure TlsErrorPage where
  pageTitle : String
  message : String
  acceptUri : String
  buttonLabel : String
  deriving Repr, DecidableEq

/-- The `if`/`elif` chain of `__on_load_failed_tls` mapping a
`Gio.TlsCertificateFlags` value (compared by equality, so combined flags
fall through) to a human-readable reason.  Flag values: UNKNOWN_CA = 1,
BAD_IDENTITY = 2, NOT_ACTIVATED = 4, EXPIRED = 8, REVOKED = 16,
INSECURE = 32, GENERIC_ERROR = 64. -/
def tlsErrorMessage (errors : Nat) : String :=
  if errors = 2 then "The certificate does not match this website"
  else if errors = 8 then "The certificate has expired"
  else if errors = 1 then "The signing certificate authority is not known"
  else if errors = 64 then "The certificate contains errors"
  else if errors = 16 then "The certificate has been revoked"
  else if errors = 32 then
    "The certificate is signed using a weak signature algorithm"
  else if errors = 4 then
    "The certificate activation time is still in the future"
  else "The identity of this website has not been verified"

/-- Shallow embedding of `__on_load_failed_tls`: capture the rejected
certificate in the view state and render the interstitial. -/
def on_load_failed_tls (st : ViewState) (uri : String) (errors : Nat)
    (certificate : Certificate) : ViewState × TlsErrorPage :=
  ({ st with badTls := some certificate },
   { pageTitle := "Connection is not secure",
     message := tlsErrorMessage errors,
     acceptUri := pyReplace uri "https://" "accept://",
     buttonLabel := "Accept Risk and Proceed" })

/-- Shallow embedding of `__on_accept_scheme`: with no pending certificate
the handler returns immediately; otherwise it registers the certificate as
trusted for the request's host (`allow_tls_certificate_for_host`, returned
as the middle component) and reloads `https://` + netloc + path through
`load_uri`. -/
def on_accept_scheme (st : ViewState) (requestUri : String) :
    ViewState × Option (Certificate × String) × List LoadAction :=
  match st.badTls with
  | none => (st, none, [])
  | some cert =>
    let parsed := urlparse requestUri
    let r := load_uri st ("https://" ++ parsed.netloc ++ parsed.path)
    (r.1, some (cert, parsed.netloc), r.2)

/-- The per-view events that touch the pending-certificate field. -/
inductive ViewEvent
  | loadRequest (uri : String)
  | tlsFailure (cert : Certificate) (uri : String) (flags : Nat)
  | acceptRequest (uri : String)
  deriving Repr, DecidableEq

/-- State transition of one event. -/
def stepEvent (st : ViewState) (ev : ViewEvent) : ViewState :=
  match ev with
  | ViewEvent.loadRequest uri => (load_uri st uri).1
  | ViewEvent.tlsFailure cert uri flags =>
    (on_load_failed_tls st uri flags cert).1
  | ViewEvent.acceptRequest uri => (on_accept_scheme st uri).1

/-- Run a sequence of events from a state. -/
def runEvents (st : ViewState) : List ViewEvent → ViewState
  | [] => st
  | ev :: rest => runEvents (stepEvent st ev) rest

/-- The custom error page rendered by `__on_load_failed`: title, detail,
icon, the URI its retry button reloads, and whether the button is hidden
(it is hidden when the network is down). -/
structure ErrorPage where
  pageTitle : String
  detail : String
  icon : String
  retryUri : String
  buttonHidden : Bool
  deriving Repr, DecidableEq

/-- Outcome of one `__on_load_failed` callback: the boolean returned to the
engine, the rendered error page if any, the art-cache suffixes deleted for
the failing URI, and whether the 1-second network recheck was scheduled. -/
structure LoadFailedResult where
  handled : Bool
  errorPage : Option ErrorPage
  deletedArtSuffixes : List String
  recheckScheduled : Bool
  deriving Repr, DecidableEq

/-- Shallow embedding of `__on_load_failed`.  Error codes outside
`[2, 4, 44]` are logged and passed through (`return False`) with no other
effect; recognized codes render a localized page, and depending on network
availability either delete the stale art cache entries or schedule the
recheck timer. -/
def on_load_failed (networkAvailable : Bool) (uri : String)
    (errorCode : Int) : LoadFailedResult :=
  if !(errorCode ∈ ([2, 4, 44] : List Int)) then
    { handled := false, errorPage := none, deletedArtSuffixes := [],
      recheckScheduled := false }
  else
    let page : ErrorPage :=
      if networkAvailable then
        { pageTitle := "Failed to load this web page",
          detail := "It may be temporarily inaccessible or moved to a new address. You may wish to verify that your internet connection is working correctly.",
          icon := "dialog-information-symbolic.svg",
          retryUri := uri, buttonHidden := false }
      else
        { pageTitle := "Network not available",
          detail := "Check your network connection",
          icon := "network-offline-symbolic.svg",
          retryUri := uri, buttonHidden := true }
    { handled := true, errorPage := some page,
      deletedArtSuffixes := if networkAvailable then ["preview", "start"]
        else [],
      recheckScheduled := !networkAvailable }

/-- Shallow embedding of `__check_for_network`: returns (whether the
original URI is reloaded now, whether the timer stays alive).  The source
reloads and returns `None` (timer removed) when the network is available,
and returns `True` (timer kept) otherwise. -/
def check_for_network (networkAvailable : Bool) : Bool × Bool :=
  if networkAvailable then (true, false) else (false, true)

/-- Number of reloads issued by the recheck timer over a sequence of
network-availability samples, one per 1-second tick, following the
keep-alive protocol of `__check_for_network`. -/
def runRecheck : List Bool → Nat
  | [] => 0
  | avail :: rest =>
    let r := check_for_network avail
    (if r.1 then 1 else 0) + (if r.2 then runRecheck rest else 0)

/-- Model of Python `split(".")` on a character list: the groups between
dots, in order, empty groups included. -/
def splitOnDot : List Char → List (List Char)
  | [] => [[]]
  | c :: rest =>
    match splitOnDot rest with
    | [] => [[]]
    | g :: gs => if c = '.' then [] :: g :: gs else (c :: g) :: gs

/-- The `".".join(netloc.split(".")[:-1])` computation of
`__on_load_changed`: the host with its last dot-separated label removed. -/
def unlocatedNetloc (netloc : String) : String :=
  (List.intercalate ['.'] (splitOnDot netloc.toList).dropLast).asString

/-- The `for javascript in javascripts` loop of the FINISHED branch: stop
at the first candidate present among the resource children; run it only if
the host/path is not an exception (the `break` ends the loop either
way). -/
def adblockLoop (children : List String) (isException : String → Bool)
    (netloc path : String) : List String → List String
  | [] => []
  | j :: rest =>
    if j ∈ children then
      let exception := isException netloc ||
        isException (netloc ++ path)
      if !exception then [j] else []
    else adblockLoop children isException netloc path rest

/-- Collaborator inputs of the FINISHED branch of `__on_load_changed`: the
`adblock` setting, the cached title `self.__title`, the view's current
title and URI (empty string models an absent title), the adblock resource
children, and the exception registry. -/
structure FinishedInput where
  adblock : Bool
  cachedTitle : String
  viewTitle : String
  viewUri : String
  children : List String
  isException : String → Bool

/-- Outcome of the FINISHED branch: the title cache afterwards, the
`title-changed` emission if any, and the block scripts actually run. -/
structure FinishedResult where
  newTitle : String
  emittedTitle : Option String
  ranScripts : List String

/-- Shallow embedding of the `WebKit2.LoadEvent.FINISHED` branch of
`__on_load_changed`. -/
def on_finished (inp : FinishedInput) (netloc path : String) :
    FinishedResult :=
  if inp.adblock then
    let (title, emitted) :=
      if inp.cachedTitle = "" then
        let t := if inp.viewTitle = "" then inp.viewUri else inp.viewTitle
        (t, some t)
      else (inp.cachedTitle, none)
    let javascripts := ["adblock_" ++ netloc ++ ".js",
                        "adblock_" ++ unlocatedNetloc netloc ++ ".js"]
    { newTitle := title, emittedTitle := emitted,
      ranScripts := adblockLoop inp.children inp.isException netloc path
        javascripts }
  else
    { newTitle := inp.cachedTitle, emittedTitle := none, ranScripts := [] }

/-- Shallow embedding of `update_zoom_level`: the per-host stored zoom (in
percent) falls back to 100 when the host has no entry, is multiplied by the
window zoom multiplier, and is divided by 100 before being handed to
`set_zoom_level`. -/
def update_zoom_level (zoomLevels : String → Option ℚ) (windowZoom : ℚ)
    (currentUri : String) : ℚ :=
  let parsed := urlparse currentUri
  let zoomLevel :=
    match zoomLevels parsed.netloc with
    | some z => z
    | none => 100
  let zoomLevel := zoomLevel * windowZoom
  zoomLevel / 100

/-- Shallow embedding of the `WebKit2.LoadEvent.COMMITTED` branch of
`__on_load_changed`: recompute the `auto-load-images` setting and the zoom
level actually applied via `set_zoom_level`. -/
def on_committed (isException : String → Bool) (imgblock : Bool)
    (zoomLevels : String → Option ℚ) (windowZoom : ℚ)
    (currentUri : String) : Bool × ℚ :=
  let parsed := urlparse currentUri
  let exception := isException parsed.netloc ||
    isException (parsed.netloc ++ parsed.path)
  let autoLoadImages := !imgblock || exception
  (autoLoadImages, update_zoom_level zoomLevels windowZoom currentUri)

/-- A fixed view state used to instantiate theorems on concrete inputs. -/
def sampleState : ViewState :=
  { loadedUri := "https://start.example/", title := "", badTls := none,
    insecureContentDetected := false, popupException := none,
    readableContent := "" }

/-- A policy environment with popup blocking on, an empty exception
registry, and an engine that renders every MIME type. -/
def blockingEnv : PolicyEnv :=
  { canShowMimeType := fun _ => true, popupblock := true,
    isException := fun _ => false }

/-- A policy environment with popup blocking on, an empty exception
registry, and an engine that renders no MIME type. -/
def noRenderEnv : PolicyEnv :=
  { canShowMimeType := fun _ => false, popupblock := true,
    isException := fun _ => false }

/-- A view state holding a pending rejected certificate. -/
def tlsState : ViewState := { sampleState with badTls := some 7 }

/-- Concrete FINISHED-branch input: ad-block on, no cached or view title,
one adblock script present for the host with its last label stripped, no
exceptions. -/
def sampleFinishedInput : FinishedInput :=
  { adblock := true, cachedTitle := "", viewTitle := "",
    viewUri := "https://host.tld/p", children := ["adblock_host.js"],
    isException := fun _ => false }

/-- Concrete per-host zoom store: 150% for example.org, nothing else. -/
def sampleZoomLevels : String → Option ℚ :=
  fun host => if host = "example.org" then some 150 else none

/-- An exception registry that exempts nothing. -/
def noException : String → Bool := fun _ => false

/-- C1: a NewWindowAction decision with mouseButton = None, navigation type
among Other/Reload/BackForward, popup blocking enabled and neither the host
nor host+path in the exception registry resolves to `Use` in the current
view: no `new-page` emission, so no new view is spawned. -/
theorem C1_new_window_popup_suppressed (env : PolicyEnv) (st : ViewState)
    (mimeType uri : String) (navType : NavigationType)
    (hpb : env.popupblock = true)
    (hnav : navType ∈ [NavigationType.other, NavigationType.reload,
                       NavigationType.backForward])
    (hhost : env.isException (urlparse uri).netloc = false)
    (hpath : env.isException ((urlparse uri).netloc ++ (urlparse uri).path)
      = false) :
    (onDecidePolicy env st PolicyDecisionType.newWindowAction mimeType uri 0
      navType).decision = Decision.use ∧
    (onDecidePolicy env st PolicyDecisionType.newWindowAction mimeType uri 0
      navType).newPage = none := by
  simp [onDecidePolicy, hpb, hnav, hhost, hpath]

theorem C1_new_window_popup_suppressed_witness :
    blockingEnv.popupblock = true ∧
    NavigationType.other ∈ [NavigationType.other, NavigationType.reload,
                            NavigationType.backForward] ∧
    blockingEnv.isException (urlparse "https://ads.example/x").netloc
      = false ∧
    blockingEnv.isException ((urlparse "https://ads.example/x").netloc ++
      (urlparse "https://ads.example/x").path) = false ∧
    (onDecidePolicy blockingEnv sampleState
      PolicyDecisionType.newWindowAction "" "https://ads.example/x" 0
      NavigationType.other).decision = Decision.use ∧
    (onDecidePolicy blockingEnv sampleState
      PolicyDecisionType.newWindowAction "" "https://ads.example/x" 0
      NavigationType.other).newPage = none := by
  refine ⟨rfl, by simp, rfl, rfl, ?_⟩
  exact C1_new_window_popup_suppressed blockingEnv sampleState ""
    "https://ads.example/x" NavigationType.other rfl (by simp) rfl rfl

/-- C2: a Response decision is `Use` exactly when the engine can render the
MIME type, `Download` otherwise, and it is independent of the mouse button,
the navigation type, the popup-block setting, the exception registry and
the view state. -/
theorem C2_response_mime_only (env env2 : PolicyEnv) (st st2 : ViewState)
    (mimeType uri uri2 : String) (mb mb2 : Nat)
    (navType navType2 : NavigationType)
    (hmime : env.canShowMimeType mimeType = env2.canShowMimeType mimeType) :
    (onDecidePolicy env st PolicyDecisionType.response mimeType uri mb
      navType).decision =
      (onDecidePolicy env2 st2 PolicyDecisionType.response mimeType uri2 mb2
        navType2).decision ∧
    ((onDecidePolicy env st PolicyDecisionType.response mimeType uri mb
      navType).decision =
      if env.canShowMimeType mimeType then Decision.use
      else Decision.download) := by
  constructor
  · simp [onDecidePolicy, hmime]
    by_cases h : env2.canShowMimeType mimeType <;> simp [h]
  · simp [onDecidePolicy]
    by_cases h : env.canShowMimeType mimeType <;> simp [h]

theorem C2_response_mime_only_witness :
    noRenderEnv.canShowMimeType "application/pdf"
      = noRenderEnv.canShowMimeType "application/pdf" ∧
    (onDecidePolicy noRenderEnv sampleState PolicyDecisionType.response
      "application/pdf" "https://a.example/f.pdf" 0
      NavigationType.other).decision = Decision.download ∧
    (onDecidePolicy noRenderEnv sampleState PolicyDecisionType.response
      "application/pdf" "https://a.example/f.pdf" 0
      NavigationType.other).decision =
      (onDecidePolicy noRenderEnv sampleState PolicyDecisionType.response
        "application/pdf" "https://b.example/g" 1
        NavigationType.linkClicked).decision := by
  refine ⟨rfl, ?_, ?_⟩
  · have h := C2_response_mime_only noRenderEnv noRenderEnv sampleState
      sampleState "application/pdf" "https://a.example/f.pdf"
      "https://a.example/f.pdf" 0 0 NavigationType.other
      NavigationType.other rfl
    simpa [noRenderEnv] using h.2
  · exact (C2_response_mime_only noRenderEnv noRenderEnv sampleState
      sampleState "application/pdf" "https://a.example/f.pdf"
      "https://b.example/g" 0 1 NavigationType.other
      NavigationType.linkClicked rfl).1

/-- C3 counterexample: evaluating the navigation decision handler is not
state-preserving — with mouseButton = Primary it overwrites the loaded-URI
field of the per-view state. -/
theorem C3_counterexample :
    (onDecidePolicy blockingEnv sampleState
      PolicyDecisionType.navigationAction "" "https://new.example/" 1
      NavigationType.linkClicked).state.loadedUri = "https://new.example/" ∧
    sampleState.loadedUri ≠ "https://new.example/" := by
  constructor
  · rfl
  · decide

/-- C3 amended: the navigation decision handler is deterministic (two
evaluations on identical request and settings agree), and it leaves the
per-view state unchanged except that when the decision kind is not Response
and mouseButton = Primary it sets the loaded-URI field to the request URI. -/
theorem C3_decide_deterministic_amended (env : PolicyEnv) (st : ViewState)
    (decisionType : PolicyDecisionType) (mimeType uri : String)
    (mouseButton : Nat) (navType : NavigationType) :
    onDecidePolicy env st decisionType mimeType uri mouseButton navType =
      onDecidePolicy env st decisionType mimeType uri mouseButton navType ∧
    (onDecidePolicy env st decisionType mimeType uri mouseButton
      navType).state =
      (if decisionType ≠ PolicyDecisionType.response ∧ mouseButton = 1 then
        { st with loadedUri := uri } else st) := by
  refine ⟨rfl, ?_⟩
  unfold onDecidePolicy
  by_cases hdt : decisionType = PolicyDecisionType.response
  · simp [hdt]
    split <;> rfl
  · by_cases h0 : mouseButton = 0
    · simp [hdt, h0]
      by_cases hnw : decisionType = PolicyDecisionType.newWindowAction
      · simp [hnw]
        split <;> rfl
      · simp [hnw]
    · by_cases h1 : mouseButton = 1
      · simp [hdt, h0, h1]
        split <;> rfl
      · simp [hdt, h0, h1]

/-- Pending-certificate content of `load_uri`: it is cleared exactly when
the URI is not `about:blank` and its parsed scheme is `http`, `https`,
`file` or `populars`; any other load (accept scheme, `about:blank`, `ftp`,
`javascript`, or a scheme outside the known list, which gets an `http://`
prefix) preserves it. -/
lemma load_uri_badTls (st : ViewState) (uri : String) :
    (load_uri st uri).1.badTls =
      (if uri ≠ "about:blank" ∧
          (urlparse uri).scheme ∈ ["http", "https", "file", "populars"] then
        none
      else st.badTls) := by
  unfold load_uri
  by_cases hab : uri = "about:blank"
  · simp [hab]
  · simp only [hab, if_false, ite_not, ne_eq, not_false_eq_true, true_and]
    by_cases hftp : (urlparse uri).scheme = "ftp"
    · simp [hftp]
    · by_cases hjs : (urlparse uri).scheme = "javascript"
      · simp [hjs, hftp]
      · by_cases hmem : (urlparse uri).scheme ∈
            ["http", "https", "file", "populars", "accept"]
        · by_cases hacc : (urlparse uri).scheme = "accept"
          · have : ¬ (urlparse uri).scheme ∈
                ["http", "https", "file", "populars"] := by
              simp [hacc]
            simp [hftp, hjs, hmem, hacc, this]
          · have : (urlparse uri).scheme ∈
                ["http", "https", "file", "populars"] := by
              simp at hmem
              rcases hmem with h | h | h | h | h <;> simp [h]
              exact absurd h hacc
            simp [hftp, hjs, hmem, hacc, this]
        · have : ¬ (urlparse uri).scheme ∈
              ["http", "https", "file", "populars"] := by
            intro h
            apply hmem
            simp at h ⊢
            rcases h with h | h | h | h <;> simp [h]
          simp [hftp, hjs, hmem, this]

/-- The event step never invents a pending certificate: if the state after
one event holds certificate `c`, either the state before did, or the event
was a TLS failure delivering `c`. -/
lemma stepEvent_badTls (st : ViewState) (ev : ViewEvent) (c : Certificate)
    (h : (stepEvent st ev).badTls = some c) :
    st.badTls = some c ∨
      ∃ uri flags, ev = ViewEvent.tlsFailure c uri flags := by
  cases ev with
  | loadRequest uri =>
    left
    rw [stepEvent, load_uri_badTls] at h
    split at h
    · exact absurd h (by simp)
    · exact h
  | tlsFailure cert uri flags =>
    right
    simp only [stepEvent, on_load_failed_tls, Option.some.injEq] at h
    exact ⟨uri, flags, by rw [h]⟩
  | acceptRequest uri =>
    left
    rw [stepEvent] at h
    unfold on_accept_scheme at h
    cases hbt : st.badTls with
    | none =>
      simp only [hbt] at h
      exact h
    | some cert =>
      simp only [hbt] at h
      rw [load_uri_badTls] at h
      split at h
      · exact absurd h (by simp)
      · rw [hbt] at h
        exact h

/-- C4 amended: `load_uri` clears the pending certificate exactly when the
target is not `about:blank` and its scheme is `http`, `https`, `file` or
`populars`; accept-scheme loads (and `about:blank`, `ftp`, `javascript`
and scheme-less URIs) preserve it; and across any event sequence the
pending certificate is non-null only if a TLS failure delivering that
certificate occurred (or it was already pending). -/
theorem C4_pending_certificate_amended :
    (∀ (st : ViewState) (uri : String),
      (load_uri st uri).1.badTls =
        (if uri ≠ "about:blank" ∧
            (urlparse uri).scheme ∈ ["http", "https", "file", "populars"]
          then none else st.badTls)) ∧
    (∀ (st : ViewState) (trace : List ViewEvent) (c : Certificate),
      (runEvents st trace).badTls = some c →
      st.badTls = some c ∨
        ∃ uri flags, ViewEvent.tlsFailure c uri flags ∈ trace) := by
  refine ⟨load_uri_badTls, ?_⟩
  intro st trace
  induction trace generalizing st with
  | nil =>
    intro c h
    exact Or.inl h
  | cons ev rest ih =>
    intro c h
    rw [runEvents] at h
    rcases ih (stepEvent st ev) c h with h2 | ⟨uri, flags, hmem⟩
    · rcases stepEvent_badTls st ev c h2 with h3 | ⟨uri, flags, hev⟩
      · exact Or.inl h3
      · exact Or.inr ⟨uri, flags, by rw [hev]; exact List.mem_cons_self _ _⟩
    · exact Or.inr ⟨uri, flags, List.mem_cons_of_mem _ hmem⟩

/-- C4 counterexample: the claim "every load of a non-error,
non-accept-scheme URI clears the pending certificate" fails — loading
"example.com" (no scheme; the code prefixes it with `http://` and loads
that) leaves the pending certificate in place. -/
theorem C4_counterexample :
    (urlparse "example.com").scheme ≠ "accept" ∧
    (load_uri tlsState "example.com").2 =
      [LoadAction.engineLoadUri "http://example.com"] ∧
    (load_uri tlsState "example.com").1.badTls = some 7 := by
  refine ⟨by decide, ?_, ?_⟩ <;> rfl

theorem C4_pending_certificate_amended_witness :
    (load_uri tlsState "https://ok.example/").1.badTls = none ∧
    (load_uri tlsState "accept://ok.example/").1.badTls = some 7 ∧
    (sampleState.badTls = some 5 ∨
      ∃ uri flags, ViewEvent.tlsFailure 5 uri flags ∈
        [ViewEvent.tlsFailure 5 "https://x.example/" 8]) := by
  refine ⟨?_, ?_, ?_⟩
  · have h := C4_pending_certificate_amended.1 tlsState "https://ok.example/"
    rw [h]
    decide
  · have h := C4_pending_certificate_amended.1 tlsState "accept://ok.example/"
    rw [h]
    decide
  · exact C4_pending_certificate_amended.2 sampleState
      [ViewEvent.tlsFailure 5 "https://x.example/" 8] 5 rfl

/-- Character list of a string with `https://` prepended. -/
lemma toList_https_append (s : String) :
    ("https://" ++ s).toList =
      'h' :: 't' :: 't' :: 'p' :: 's' :: ':' :: '/' :: '/' :: s.toList := by
  show ("https://" ++ s).data = _
  rw [String.data_append]
  rfl

/-- `takeScheme` on a list starting with `https:` splits there. -/
lemma takeScheme_https (l : List Char) :
    takeScheme ('h' :: 't' :: 't' :: 'p' :: 's' :: ':' :: l) =
      some (['h', 't', 't', 'p', 's'], l) := by
  simp [takeScheme]

/-- The parsed scheme of `https://` + anything is `https`. -/
lemma urlparse_https (s : String) :
    (urlparse ("https://" ++ s)).scheme = "https" := by
  simp [urlparse, toList_https_append, takeScheme_https, isSchemeChar]
  rfl

/-- `https://` + anything is never the literal `about:blank`. -/
lemma https_append_ne_about (s : String) :
    "https://" ++ s ≠ "about:blank" := by
  intro h
  have h2 : ("https://" ++ s).toList = "about:blank".toList :=
    congrArg String.toList h
  rw [toList_https_append] at h2
  have h3 := congrArg List.head? h2
  simp at h3

/-- `load_uri` on an `https://` URI resets the TLS state and asks the
engine to load it. -/
lemma load_uri_https (st : ViewState) (s : String) :
    load_uri st ("https://" ++ s) =
      ({ st with badTls := none, insecureContentDetected := false,
                 loadedUri := "https://" ++ s },
       [LoadAction.engineLoadUri ("https://" ++ s)]) := by
  unfold load_uri
  rw [if_neg (https_append_ne_about s)]
  simp [urlparse_https]

/-- C5: `__on_load_failed_tls` captures the rejected certificate and maps
the failure flag to exactly one of seven human-readable reasons
(BAD_IDENTITY = 2, EXPIRED = 8, UNKNOWN_CA = 1, GENERIC_ERROR = 64,
REVOKED = 16, INSECURE = 32, NOT_ACTIVATED = 4), any other flag value
falling back to the generic unverified-identity message; its bypass button
carries the URI with `https://` replaced by `accept://`, and accepting the
override registers the pending certificate as trusted for the request's
host and reloads the corresponding `https://` URI. -/
theorem C5_tls_reasons_and_accept :
    (tlsErrorMessage 2 = "The certificate does not match this website" ∧
     tlsErrorMessage 8 = "The certificate has expired" ∧
     tlsErrorMessage 1 = "The signing certificate authority is not known" ∧
     tlsErrorMessage 64 = "The certificate contains errors" ∧
     tlsErrorMessage 16 = "The certificate has been revoked" ∧
     tlsErrorMessage 32 =
       "The certificate is signed using a weak signature algorithm" ∧
     tlsErrorMessage 4 =
       "The certificate activation time is still in the future") ∧
    (∀ e : Nat, e ∉ ([1, 2, 4, 8, 16, 32, 64] : List Nat) →
      tlsErrorMessage e =
        "The identity of this website has not been verified") ∧
    (∀ (st : ViewState) (uri : String) (errors : Nat)
      (cert : Certificate),
      (on_load_failed_tls st uri errors cert).1.badTls = some cert ∧
      (on_load_failed_tls st uri errors cert).2.message =
        tlsErrorMessage errors ∧
      (on_load_failed_tls st uri errors cert).2.acceptUri =
        pyReplace uri "https://" "accept://") ∧
    (∀ (st : ViewState) (cert : Certificate) (uri : String),
      st.badTls = some cert →
      (on_accept_scheme st uri).2.1 =
        some (cert, (urlparse uri).netloc) ∧
      (on_accept_scheme st uri).2.2 =
        [LoadAction.engineLoadUri
          ("https://" ++ (urlparse uri).netloc ++ (urlparse uri).path)] ∧
      (on_accept_scheme st uri).1 =
        { st with badTls := none, insecureContentDetected := false,
                  loadedUri := "https://" ++ (urlparse uri).netloc ++
                    (urlparse uri).path }) := by
  refine ⟨⟨rfl, rfl, rfl, rfl, rfl, rfl, rfl⟩, ?_, ?_, ?_⟩
  · intro e he
    simp at he
    obtain ⟨h1, h2, h4, h8, h16, h32, h64⟩ := he
    simp [tlsErrorMessage, h1, h2, h4, h8, h16, h32, h64]
  · intro st uri errors cert
    exact ⟨rfl, rfl, rfl⟩
  · intro st cert uri h
    have hred : on_accept_scheme st uri =
        ((load_uri st ("https://" ++ (urlparse uri).netloc ++
          (urlparse uri).path)).1,
         some (cert, (urlparse uri).netloc),
         (load_uri st ("https://" ++ (urlparse uri).netloc ++
           (urlparse uri).path)).2) := by
      unfold on_accept_scheme
      rw [h]
    rw [hred,
      String.append_assoc "https://" (urlparse uri).netloc
        (urlparse uri).path,
      load_uri_https]
    exact ⟨rfl, rfl, rfl⟩

theorem C5_tls_reasons_and_accept_witness :
    (42 ∉ ([1, 2, 4, 8, 16, 32, 64] : List Nat) ∧
      tlsErrorMessage 42 =
        "The identity of this website has not been verified") ∧
    (on_load_failed_tls sampleState "https://host.tld/p" 8 7).1.badTls
      = some 7 ∧
    (on_load_failed_tls sampleState "https://host.tld/p" 8 7).2.message
      = "The certificate has expired" ∧
    (on_load_failed_tls sampleState "https://host.tld/p" 8 7).2.acceptUri
      = "accept://host.tld/p" ∧
    (tlsState.badTls = some 7 ∧
      (on_accept_scheme tlsState "accept://host.tld/p").2.1 =
        some (7, "host.tld") ∧
      (on_accept_scheme tlsState "accept://host.tld/p").2.2 =
        [LoadAction.engineLoadUri "https://host.tld/p"] ∧
      (on_accept_scheme tlsState "accept://host.tld/p").1.badTls = none) := by
  have hmap := C5_tls_reasons_and_accept.1
  have hfb := C5_tls_reasons_and_accept.2.1 42 (by decide)
  have hcap := C5_tls_reasons_and_accept.2.2.1 sampleState
    "https://host.tld/p" 8 7
  have hacc := C5_tls_reasons_and_accept.2.2.2 tlsState 7
    "accept://host.tld/p" rfl
  refine ⟨⟨by decide, hfb⟩, hcap.1, ?_, ?_, rfl, ?_, ?_, ?_⟩
  · rw [hcap.2.1, hmap.2.1]
  · rw [hcap.2.2]
    decide
  · rw [hacc.1]
    rfl
  · rw [hacc.2.1]
    rfl
  · rw [hacc.2.2]

/-- C6: `__on_load_failed` renders a custom error page exactly for the
three recognized engine error codes 2, 4 and 44; for any other code the
failure is logged and passed through unmodified (`return False`), with no
error page, no art-cache deletion and no recheck timer. -/
theorem C6_error_code_classification
    (networkAvailable : Bool) (uri : String) (errorCode : Int) :
    ((on_load_failed networkAvailable uri errorCode).errorPage ≠ none ↔
      errorCode ∈ ([2, 4, 44] : List Int)) ∧
    (errorCode ∉ ([2, 4, 44] : List Int) →
      on_load_failed networkAvailable uri errorCode =
        { handled := false, errorPage := none, deletedArtSuffixes := [],
          recheckScheduled := false }) := by
  unfold on_load_failed
  by_cases hm : errorCode ∈ ([2, 4, 44] : List Int) <;> simp [hm]

theorem C6_error_code_classification_witness :
    ((42 : Int) ∉ ([2, 4, 44] : List Int) ∧
      on_load_failed true "https://x.example/" 42 =
        { handled := false, errorPage := none, deletedArtSuffixes := [],
          recheckScheduled := false }) ∧
    ((2 : Int) ∈ ([2, 4, 44] : List Int) ∧
      (on_load_failed true "https://x.example/" 2).errorPage ≠ none) := by
  constructor
  · exact ⟨by decide,
      (C6_error_code_classification true "https://x.example/" 42).2
        (by decide)⟩
  · exact ⟨by decide,
      (C6_error_code_classification true "https://x.example/" 2).1.mpr
        (by decide)⟩

/-- The recheck loop reloads exactly once if some tick sees the network
available, and never otherwise. -/
lemma runRecheck_eq (samples : List Bool) :
    runRecheck samples = (if true ∈ samples then 1 else 0) := by
  induction samples with
  | nil => rfl
  | cons a rest ih =>
    cases a <;> simp [runRecheck, check_for_network, ih]

/-- C7: after a recognized failure with the network down the recheck timer
is scheduled; over any sequence of availability samples the timer reloads
the original URI exactly once if the network ever becomes available
(stopping afterwards), and never while the network stays unavailable. -/
theorem C7_network_recheck :
    (∀ samples : List Bool,
      runRecheck samples = (if true ∈ samples then 1 else 0)) ∧
    (∀ samples : List Bool, (∀ b ∈ samples, b = false) →
      runRecheck samples = 0) ∧
    (∀ uri : String,
      (on_load_failed false uri 2).recheckScheduled = true ∧
      (on_load_failed true uri 2).recheckScheduled = false) := by
  refine ⟨runRecheck_eq, ?_, ?_⟩
  · intro samples h
    rw [runRecheck_eq]
    have : true ∉ samples := fun hm => by simpa using h true hm
    simp [this]
  · intro uri
    constructor <;> rfl

theorem C7_network_recheck_witness :
    runRecheck [false, false, true, false] = 1 ∧
    ((∀ b ∈ [false, false, false], b = false) ∧
      runRecheck [false, false, false] = 0) ∧
    (on_load_failed false "https://x.example/" 2).recheckScheduled
      = true := by
  refine ⟨?_, ⟨by decide, ?_⟩, ?_⟩
  · rw [C7_network_recheck.1 [false, false, true, false]]
    decide
  · exact C7_network_recheck.2.1 [false, false, false] (by decide)
  · exact (C7_network_recheck.2.2 "https://x.example/").1

/-- The adblock script loop runs at most one script. -/
lemma adblockLoop_length (children : List String)
    (isException : String → Bool) (netloc path : String)
    (js : List String) :
    (adblockLoop children isException netloc path js).length ≤ 1 := by
  induction js with
  | nil => simp [adblockLoop]
  | cons j rest ih =>
    unfold adblockLoop
    by_cases hj : j ∈ children <;> simp [hj]
    · split <;> simp
    · exact ih

/-- C8: in the FINISHED branch with ad-block enabled and the host and
host+path not exempted, the block script is looked up by exact host first,
then by the host with its last dot-separated label stripped; at most one
script is ever run; and when no title was cached and the view has none a
title is synthesized from the page URI. -/
theorem C8_adblock_script_lookup (inp : FinishedInput)
    (netloc path : String) :
    (on_finished inp netloc path).ranScripts.length ≤ 1 ∧
    (inp.adblock = true →
      inp.isException netloc = false →
      inp.isException (netloc ++ path) = false →
      ((("adblock_" ++ netloc ++ ".js") ∈ inp.children →
        (on_finished inp netloc path).ranScripts =
          ["adblock_" ++ netloc ++ ".js"]) ∧
      (("adblock_" ++ netloc ++ ".js") ∉ inp.children →
        ("adblock_" ++ unlocatedNetloc netloc ++ ".js") ∈ inp.children →
        (on_finished inp netloc path).ranScripts =
          ["adblock_" ++ unlocatedNetloc netloc ++ ".js"]) ∧
      (("adblock_" ++ netloc ++ ".js") ∉ inp.children →
        ("adblock_" ++ unlocatedNetloc netloc ++ ".js") ∉ inp.children →
        (on_finished inp netloc path).ranScripts = []))) ∧
    (inp.adblock = true → inp.cachedTitle = "" → inp.viewTitle = "" →
      (on_finished inp netloc path).emittedTitle = some inp.viewUri ∧
      (on_finished inp netloc path).newTitle = inp.viewUri) := by
  refine ⟨?_, ?_, ?_⟩
  · unfold on_finished
    by_cases hab : inp.adblock
    · simp [hab]
      exact adblockLoop_length _ _ _ _ _
    · simp [hab]
  · intro hab hexc1 hexc2
    refine ⟨?_, ?_, ?_⟩
    · intro hmem
      unfold on_finished
      simp [hab, adblockLoop, hmem, hexc1, hexc2]
    · intro hnm hmem
      unfold on_finished
      simp [hab, adblockLoop, hnm, hmem, hexc1, hexc2]
    · intro hnm1 hnm2
      unfold on_finished
      simp [hab, adblockLoop, hnm1, hnm2]
  · intro hab hct hvt
    unfold on_finished
    simp [hab, hct, hvt]

theorem C8_adblock_script_lookup_witness :
    sampleFinishedInput.adblock = true ∧
    sampleFinishedInput.isException "host.tld" = false ∧
    sampleFinishedInput.isException ("host.tld" ++ "/p") = false ∧
    ("adblock_" ++ "host.tld" ++ ".js") ∉ sampleFinishedInput.children ∧
    ("adblock_" ++ unlocatedNetloc "host.tld" ++ ".js")
      ∈ sampleFinishedInput.children ∧
    (on_finished sampleFinishedInput "host.tld" "/p").ranScripts =
      ["adblock_" ++ unlocatedNetloc "host.tld" ++ ".js"] ∧
    (on_finished sampleFinishedInput "host.tld" "/p").emittedTitle =
      some sampleFinishedInput.viewUri := by
  have h := C8_adblock_script_lookup sampleFinishedInput "host.tld" "/p"
  refine ⟨rfl, rfl, rfl, by decide, by decide, ?_, ?_⟩
  · exact (h.2.1 rfl rfl rfl).2.1 (by decide) (by decide)
  · exact (h.2.2 rfl rfl rfl).1

/-- C9: in the COMMITTED branch the image auto-load setting is recomputed
as NOT imgblock OR isException(host) OR isException(host+path), and the
zoom level handed to the engine is the per-host stored percentage
(defaulting to 100 when the host has no entry) times the per-window zoom
multiplier, divided by 100; with no stored entry it is exactly the window
multiplier. -/
theorem C9_committed_images_zoom (isException : String → Bool)
    (imgblock : Bool) (zoomLevels : String → Option ℚ) (windowZoom : ℚ)
    (currentUri : String) :
    (on_committed isException imgblock zoomLevels windowZoom
      currentUri).1 =
      (!imgblock || isException (urlparse currentUri).netloc ||
        isException ((urlparse currentUri).netloc ++
          (urlparse currentUri).path)) ∧
    (on_committed isException imgblock zoomLevels windowZoom
      currentUri).2 =
      ((zoomLevels (urlparse currentUri).netloc).getD 100) * windowZoom
        / 100 ∧
    (zoomLevels (urlparse currentUri).netloc = none →
      (on_committed isException imgblock zoomLevels windowZoom
        currentUri).2 = windowZoom) := by
  refine ⟨?_, ?_, ?_⟩
  · rw [Bool.or_assoc]
    rfl
  · unfold on_committed update_zoom_level
    cases hz : zoomLevels (urlparse currentUri).netloc <;> simp [hz]
  · intro hz
    unfold on_committed update_zoom_level
    simp [hz]

theorem C9_committed_images_zoom_witness :
    (on_committed noException true sampleZoomLevels 2
      "https://example.org/a").1 = false ∧
    (on_committed noException true sampleZoomLevels 2
      "https://example.org/a").2 = 3 ∧
    sampleZoomLevels (urlparse "https://other.example/b").netloc = none ∧
    (on_committed noException true sampleZoomLevels 2
      "https://other.example/b").2 = 2 := by
  have h1 := C9_committed_images_zoom noException true sampleZoomLevels 2
    "https://example.org/a"
  have h2 := C9_committed_images_zoom noException true sampleZoomLevels 2
    "https://other.example/b"
  refine ⟨?_, ?_, rfl, h2.2.2 rfl⟩
  · rw [h1.1]
    rfl
  · rw [h1.2.1]
    have hn : (urlparse "https://example.org/a").netloc = "example.org" := by
      decide
    rw [hn]
    norm_num [sampleZoomLevels]

/-- C10: triggering the accept pathway with no pending certificate is a
no-op — no certificate is registered as trusted, no load is issued, and the
per-view state is unchanged. -/
theorem C10_accept_without_pending_noop (st : ViewState) (uri : String)
    (h : st.badTls = none) :
    on_accept_scheme st uri = (st, none, []) := by
  unfold on_accept_scheme
  rw [h]

theorem C10_accept_without_pending_noop_witness :
    sampleState.badTls = none ∧
    on_accept_scheme sampleState "accept://host.tld/p" =
      (sampleState, none, []) := by
  exact ⟨rfl,
    C10_accept_without_pending_noop sampleState "accept://host.tld/p" rfl⟩
